import Mathlib

/-!
Shallow embedding of the tracardi-postgresql-connector plugin
(`tracardi_postgresql_connector/plugin.py` and
`tracardi_postgresql_connector/model/postresql.py`) together with proofs of the
specification claims about it.

The plugin is a single action class `PostreSQLConnectorAction` with a build
step (resolve credentials, open a connection, store query and timeout), a
`run` step (fetch rows for the configured query and serialize them onto the
`"result"` output port), a `close` step, and a static row serializer
`to_dict` built from `json.loads(json.dumps(dict(record), default=json_default))`.

Python values appearing in a driver row are modelled by the inductive `Value`,
covering exactly the value domain of the data model (string, integer, float,
boolean, null, timestamp, date, arbitrary-precision decimal, or an otherwise
opaque object carried together with its `str()` representation).  Finite Python
floats are exact rationals and CPython's repr round-trip through JSON text is
exact on them, so the float leg of the `json.dumps`/`json.loads` round trip is
modelled as the identity on a `Rat`-valued `PyFloat`.
-/

/-- Python `datetime.date`: a calendar date. -/
structure PyDate where
  year : Nat
  month : Nat
  day : Nat
deriving DecidableEq, Repr

/-- Python `datetime.datetime`: a timestamp. -/
structure PyDatetime where
  year : Nat
  month : Nat
  day : Nat
  hour : Nat
  minute : Nat
  second : Nat
  microsecond : Nat
deriving DecidableEq, Repr

/-- Python `decimal.Decimal`, a finite arbitrary-precision decimal
`mantissa * 10 ^ exponent`. -/
structure PyDecimal where
  mantissa : Int
  exponent : Int
deriving DecidableEq, Repr

/-- Finite Python floats modelled by their exact rational value. -/
abbrev PyFloat := Rat

/-- Value of `float(d)` for a finite decimal `d` (the conversion applied by
`json_default` in `plugin.py`; its exact rational value, the claims proved
here do not depend on double rounding). -/
def PyDecimal.toFloat (d : PyDecimal) : PyFloat :=
  (d.mantissa : Rat) * (10 : Rat) ^ d.exponent

/-- Left-pad the decimal digits of `n` with zeros to width `w`, as Python's
fixed-width formatting inside `isoformat` does. -/
def padZero (w : Nat) (n : Nat) : String :=
  let s := toString n
  String.mk (List.replicate (w - s.length) '0') ++ s

/-- Python `date.isoformat()`: `YYYY-MM-DD`. -/
def PyDate.isoformat (d : PyDate) : String :=
  padZero 4 d.year ++ "-" ++ padZero 2 d.month ++ "-" ++ padZero 2 d.day

/-- Python `datetime.isoformat()`: `YYYY-MM-DDTHH:MM:SS` with a 6-digit
`.ffffff` suffix exactly when the microsecond field is nonzero. -/
def PyDatetime.isoformat (dt : PyDatetime) : String :=
  padZero 4 dt.year ++ "-" ++ padZero 2 dt.month ++ "-" ++ padZero 2 dt.day ++ "T" ++
    padZero 2 dt.hour ++ ":" ++ padZero 2 dt.minute ++ ":" ++ padZero 2 dt.second ++
    (if dt.microsecond = 0 then "" else "." ++ padZero 6 dt.microsecond)

/-- Driver-native column values, the value domain of a `Row` in the data
model.  `other` is an object of any further type, carried together with its
Python `str()` representation. -/
inductive Value where
  | str : String → Value
  | int : Int → Value
  | float : PyFloat → Value
  | bool : Bool → Value
  | null : Value
  | datetime : PyDatetime → Value
  | date : PyDate → Value
  | decimal : PyDecimal → Value
  | other : String → Value
deriving DecidableEq, Repr

/-- True on the values `json.dumps` serializes natively without consulting its
`default` hook (JSON-native scalars: string, number, boolean, null). -/
def Value.jsonNative : Value → Bool
  | .str _ => true
  | .int _ => true
  | .float _ => true
  | .bool _ => true
  | .null => true
  | _ => false

/-- The `json_default` hook from `PostreSQLConnectorAction.to_dict`: called on
objects not serializable by default json code; datetimes and dates become
their `isoformat()` string, decimals become `float(obj)`, anything else
becomes `str(obj)`. -/
def json_default : Value → Value
  | .datetime dt => .str dt.isoformat
  | .date d => .str d.isoformat
  | .decimal d => .float d.toFloat
  | v => .str (match v with | .other s => s | _ => "")

/-- One value through `json.loads(json.dumps(·, default=json_default))`:
JSON-native scalars round-trip unchanged, every other value is replaced by
`json_default` of it (whose result is itself JSON-native). -/
def serializeValue (v : Value) : Value :=
  if v.jsonNative then v else json_default v

/-- A driver row: ordered mapping from column name to native value. -/
abbrev Row := List (String × Value)

namespace PostreSQLConnectorAction

/-- The static row serializer `PostreSQLConnectorAction.to_dict`:
`json.loads(json.dumps(dict(record), default=json_default))`, i.e. the keys
are kept and each value goes through `serializeValue`. -/
def to_dict (record : Row) : Row :=
  record.map (fun p => (p.1, serializeValue p.2))

end PostreSQLConnectorAction

/-- The `Connection` pydantic model from `model/postresql.py`: database, user
and password are required, host defaults to `'localhost'` and port to `5439`. -/
structure Connection where
  database : String
  user : String
  password : String
  host : String := "localhost"
  port : Int := 5439
deriving DecidableEq, Repr

/-- Modelled from the spec: `tracardi_postgresql_connector/model/configuration.py`
is imported by `plugin.py` but absent from the sources.  Per the data model a
`Configuration` holds a source reference (`sourceId`), the raw SQL `query`,
and a `timeout` in seconds defaulting to 20. -/
structure Configuration where
  sourceId : String
  query : String
  timeout : Nat := 20
deriving DecidableEq, Repr

/-- Failure conditions surfaced by the external collaborators (host credential
resolution, asyncpg connect/fetch) and by the action itself. -/
inductive Err where
  | credentialError : String → Err
  | connectionError : String → Err
  | queryError : String → Err
  | timeoutError : Err
  | noConnection : Err
deriving DecidableEq, Repr

/-- An open asyncpg connection handle.  `closed` tracks whether
`Connection.close()` has run; `fetch` is the driver's query execution,
taking the SQL text and the timeout and yielding the result rows (or a
query/timeout error).  The driver is an external collaborator, so `fetch`
stays abstract. -/
structure DBConn where
  closed : Bool
  fetch : String → Nat → Except Err (List Row)

/-- Close the driver connection handle.  asyncpg's `Connection.close()` is a
no-op on an already-closed connection, so at this abstraction it just marks
the handle closed. -/
def DBConn.closeConn (c : DBConn) : DBConn :=
  { c with closed := true }

namespace PostreSQLConnectorAction

/-- The state `__init__` leaves on the action instance: `self.db`,
`self.query`, `self.timeout`.  The source guards teardown with
`if self.db:`, so `db` is an `Option`, with `none` standing for the falsy
or absent attribute that guard tests for; every successfully built action
has `db = some _`. -/
structure ActionState where
  db : Option DBConn
  query : String
  timeout : Nat

/-- The build step (`build` + `__init__`): resolve the credentials into a
`Connection` (performed by the host, kept abstract as `getCred`), open the
database connection (`connection.connect()`, kept abstract as `connectFn`),
and store the connection handle, the query text and the timeout.  Any
failure propagates and no action state is produced. -/
def build (config : Configuration) (getCred : Except Err Connection)
    (connectFn : Connection → Except Err DBConn) : Except Err ActionState :=
  match getCred with
  | .error e => .error e
  | .ok conn =>
    match connectFn conn with
    | .error e => .error e
    | .ok db => .ok { db := some db, query := config.query, timeout := config.timeout }

/-- The value carried on the output port: the mapping
`{"result": [row, ...]}`. -/
structure RunResult where
  port : String
  value : List (String × List Row)
deriving Repr

set_option linter.unusedVariables false in
/-- `PostreSQLConnectorAction.run`: fetch the configured query with the
configured timeout, serialize each record with `to_dict`, and return
`Result(port="result", value={"result": result})`.  The `payload` argument
is accepted and never used, exactly as in the source.  The `none` branch
models the attribute access `self.db` failing when no connection was ever
stored. -/
def run {α : Type} (s : ActionState) (payload : α) : Except Err RunResult :=
  match s.db with
  | none => .error .noConnection
  | some db =>
    match db.fetch s.query s.timeout with
    | .error e => .error e
    | .ok result => .ok { port := "result", value := [("result", result.map to_dict)] }

/-- `PostreSQLConnectorAction.close`: `if self.db: await self.db.close()`. -/
def close (s : ActionState) : ActionState :=
  match s.db with
  | none => s
  | some c => { s with db := some c.closeConn }

end PostreSQLConnectorAction

/-- The static defaults of the `init` mapping in `register()` in `plugin.py`:
`{"source": {"id": None}, "query": None, "timeout": 20}`. -/
structure PluginInitValues where
  source_id : Option String
  query : Option String
  timeout : Nat
deriving DecidableEq, Repr

/-- The concrete `init` mapping registered by `register()`. -/
def registerInitValues : PluginInitValues :=
  { source_id := none, query := none, timeout := 20 }

example : PostreSQLConnectorAction.to_dict
    [("id", .int 1),
     ("created", .datetime ⟨2023, 1, 1, 0, 0, 0, 0⟩),
     ("amount", .decimal ⟨1999, -2⟩)] =
    [("id", .int 1),
     ("created", .str "2023-01-01T00:00:00"),
     ("amount", .float (PyDecimal.toFloat ⟨1999, -2⟩))] := by
  rfl

/-- Serialization is the identity on JSON-native values. -/
theorem serializeValue_native {v : Value} (h : v.jsonNative = true) :
    serializeValue v = v := by
  simp [serializeValue, h]

/-- Serialization is idempotent on a single value: its output is always a
JSON-native scalar, which a second pass leaves unchanged. -/
theorem serializeValue_idem (v : Value) :
    serializeValue (serializeValue v) = serializeValue v := by
  cases v <;> simp [serializeValue, json_default, Value.jsonNative]

/-- Mapping a row through `to_dict` sends the entry `(k, v)` to
`(k, serializeValue v)`. -/
theorem mem_to_dict_of_mem {row : Row} {k : String} {v : Value}
    (h : (k, v) ∈ row) :
    (k, serializeValue v) ∈ PostreSQLConnectorAction.to_dict row :=
  List.mem_map_of_mem (fun p => (p.1, serializeValue p.2)) h

/-- C1: for every query result, `run` returns its value on the single output
port `"result"` as the mapping `{"result": [row, ...]}` with one serialized
row per result row; with zero rows the value is `{"result": []}`. -/
theorem run_returns_result_port (s : PostreSQLConnectorAction.ActionState)
    (db : DBConn) (rows : List Row) {α : Type} (p : α)
    (hdb : s.db = some db) (hfetch : db.fetch s.query s.timeout = .ok rows) :
    PostreSQLConnectorAction.run s p =
      .ok { port := "result",
            value := [("result", rows.map PostreSQLConnectorAction.to_dict)] } ∧
    (rows.map PostreSQLConnectorAction.to_dict).length = rows.length ∧
    (rows = [] →
      PostreSQLConnectorAction.run s p =
        .ok { port := "result", value := [("result", [])] }) := by
  refine ⟨?_, by simp, ?_⟩
  · simp [PostreSQLConnectorAction.run, hdb, hfetch]
  · rintro rfl
    simp [PostreSQLConnectorAction.run, hdb, hfetch]

/-- Witness for C1 at a concrete zero-row state. -/
theorem run_returns_result_port_witness :
    PostreSQLConnectorAction.run
      ⟨some ⟨false, fun _ _ => .ok []⟩, "SELECT 1", 20⟩ (0 : Nat) =
      .ok { port := "result", value := [("result", [])] } :=
  (run_returns_result_port ⟨some ⟨false, fun _ _ => .ok []⟩, "SELECT 1", 20⟩
    ⟨false, fun _ _ => .ok []⟩ [] (0 : Nat) rfl rfl).2.2 rfl

/-- C2: every timestamp or date value in a row appears in the serialized row,
under the same key, as its ISO-8601 `isoformat()` string. -/
theorem to_dict_iso8601 (row : Row) (k : String) :
    (∀ dt : PyDatetime, (k, Value.datetime dt) ∈ row →
      (k, Value.str dt.isoformat) ∈ PostreSQLConnectorAction.to_dict row) ∧
    (∀ d : PyDate, (k, Value.date d) ∈ row →
      (k, Value.str d.isoformat) ∈ PostreSQLConnectorAction.to_dict row) := by
  exact ⟨fun dt h => mem_to_dict_of_mem h, fun d h => mem_to_dict_of_mem h⟩

/-- Witness for C2 on a row holding one timestamp and one date. -/
theorem to_dict_iso8601_witness :
    (("created", Value.str (PyDatetime.isoformat ⟨2023, 1, 1, 0, 0, 0, 0⟩)) ∈
      PostreSQLConnectorAction.to_dict
        [("created", Value.datetime ⟨2023, 1, 1, 0, 0, 0, 0⟩),
         ("day", Value.date ⟨2023, 1, 2⟩)]) ∧
    (("day", Value.str (PyDate.isoformat ⟨2023, 1, 2⟩)) ∈
      PostreSQLConnectorAction.to_dict
        [("created", Value.datetime ⟨2023, 1, 1, 0, 0, 0, 0⟩),
         ("day", Value.date ⟨2023, 1, 2⟩)]) :=
  ⟨(to_dict_iso8601 _ "created").1 ⟨2023, 1, 1, 0, 0, 0, 0⟩ (by decide),
   (to_dict_iso8601 _ "day").2 ⟨2023, 1, 2⟩ (by decide)⟩

/-- C3: every decimal value `d` in a row appears in the serialized row, under
the same key, as the floating-point number `float(d)`. -/
theorem to_dict_decimal_float (row : Row) (k : String) (d : PyDecimal)
    (h : (k, Value.decimal d) ∈ row) :
    (k, Value.float d.toFloat) ∈ PostreSQLConnectorAction.to_dict row :=
  mem_to_dict_of_mem h

/-- Witness for C3 on a row holding the decimal 19.99. -/
theorem to_dict_decimal_float_witness :
    ("amount", Value.float (PyDecimal.toFloat ⟨1999, -2⟩)) ∈
      PostreSQLConnectorAction.to_dict [("amount", Value.decimal ⟨1999, -2⟩)] :=
  to_dict_decimal_float _ "amount" ⟨1999, -2⟩ (by decide)

/-- C4: the serialized row has exactly the keys of the input row; JSON-native
values pass through unchanged, and a value of any other non-JSON type appears
as its `str()` representation. -/
theorem to_dict_keys_and_pass_through (row : Row) (k : String) (v : Value) :
    (PostreSQLConnectorAction.to_dict row).map Prod.fst = row.map Prod.fst ∧
    ((k, v) ∈ row → v.jsonNative = true →
      (k, v) ∈ PostreSQLConnectorAction.to_dict row) ∧
    (∀ s, (k, Value.other s) ∈ row →
      (k, Value.str s) ∈ PostreSQLConnectorAction.to_dict row) := by
  refine ⟨?_, ?_, ?_⟩
  · simp [PostreSQLConnectorAction.to_dict, List.map_map, Function.comp]
  · intro h hv
    have := mem_to_dict_of_mem h
    rwa [serializeValue_native hv] at this
  · intro s h
    exact mem_to_dict_of_mem h

/-- Witness for C4 on a concrete mixed row. -/
theorem to_dict_keys_and_pass_through_witness :
    (PostreSQLConnectorAction.to_dict
        [("id", Value.int 1), ("blob", Value.other "point(1,2)")]).map Prod.fst =
      [("id", Value.int 1), ("blob", Value.other "point(1,2)")].map Prod.fst ∧
    ("id", Value.int 1) ∈
      PostreSQLConnectorAction.to_dict
        [("id", Value.int 1), ("blob", Value.other "point(1,2)")] ∧
    ("blob", Value.str "point(1,2)") ∈
      PostreSQLConnectorAction.to_dict
        [("id", Value.int 1), ("blob", Value.other "point(1,2)")] :=
  ⟨(to_dict_keys_and_pass_through
      [("id", Value.int 1), ("blob", Value.other "point(1,2)")] "id" (Value.int 1)).1,
   (to_dict_keys_and_pass_through
      [("id", Value.int 1), ("blob", Value.other "point(1,2)")] "id" (Value.int 1)).2.1
      (by decide) (by decide),
   (to_dict_keys_and_pass_through
      [("id", Value.int 1), ("blob", Value.other "point(1,2)")] "blob" Value.null).2.2
      "point(1,2)" (by decide)⟩

/-- C5: the serialized list is exactly the element-wise map of `to_dict` over
the fetched rows, so the row at every output index is the serialization of
the fetched row at that index and row order is preserved. -/
theorem run_maps_to_dict_rowwise (s : PostreSQLConnectorAction.ActionState)
    (db : DBConn) (rows : List Row) {α : Type} (p : α)
    (hdb : s.db = some db) (hfetch : db.fetch s.query s.timeout = .ok rows) :
    PostreSQLConnectorAction.run s p =
      .ok { port := "result",
            value := [("result", rows.map PostreSQLConnectorAction.to_dict)] } ∧
    ∀ i : Nat, (rows.map PostreSQLConnectorAction.to_dict)[i]? =
      (rows[i]?).map PostreSQLConnectorAction.to_dict := by
  refine ⟨by simp [PostreSQLConnectorAction.run, hdb, hfetch], fun i => ?_⟩
  simp

/-- Witness for C5 at a concrete two-row state. -/
theorem run_maps_to_dict_rowwise_witness :
    PostreSQLConnectorAction.run
      ⟨some ⟨false, fun _ _ => .ok [[("id", Value.int 1)], [("id", Value.int 2)]]⟩,
       "SELECT id FROM t", 20⟩ (0 : Nat) =
      .ok { port := "result",
            value := [("result",
              [[("id", Value.int 1)], [("id", Value.int 2)]].map
                PostreSQLConnectorAction.to_dict)] } :=
  (run_maps_to_dict_rowwise
    ⟨some ⟨false, fun _ _ => .ok [[("id", Value.int 1)], [("id", Value.int 2)]]⟩,
     "SELECT id FROM t", 20⟩
    ⟨false, fun _ _ => .ok [[("id", Value.int 1)], [("id", Value.int 2)]]⟩
    [[("id", Value.int 1)], [("id", Value.int 2)]] (0 : Nat) rfl rfl).1

/-- C6: `build` produces an action state exactly when credential resolution
and connection opening both succeed, and then stores the opened handle, the
query text and the timeout; either failure propagates as a build error, so no
action state exists on which `run` could be invoked. -/
theorem build_ok_iff (config : Configuration) (gc : Except Err Connection)
    (cf : Connection → Except Err DBConn) :
    (∀ s, PostreSQLConnectorAction.build config gc cf = .ok s ↔
      ∃ conn db, gc = .ok conn ∧ cf conn = .ok db ∧
        s = { db := some db, query := config.query, timeout := config.timeout }) ∧
    (∀ e, gc = .error e →
      PostreSQLConnectorAction.build config gc cf = .error e) ∧
    (∀ conn e, gc = .ok conn → cf conn = .error e →
      PostreSQLConnectorAction.build config gc cf = .error e) := by
  cases gc with
  | error e =>
    refine ⟨fun s => ?_, fun e' he => ?_, fun conn e' hok => ?_⟩
    · simp [PostreSQLConnectorAction.build]
    · cases he; rfl
    · cases hok
  | ok conn =>
    refine ⟨fun s => ?_, fun e' he => ?_, fun conn' e' hok hcf => ?_⟩
    · cases hcf : cf conn with
      | error e => simp [PostreSQLConnectorAction.build, hcf]
      | ok db =>
        simp only [PostreSQLConnectorAction.build, hcf]
        constructor
        · intro h
          injection h with h
          exact ⟨conn, db, rfl, hcf, h.symm⟩
        · rintro ⟨c, d, hc, hd, rfl⟩
          injection hc with hc
          subst hc
          rw [hcf] at hd
          injection hd with hd
          subst hd
          rfl
    · cases he
    · injection hok with hok
      subst hok
      simp [PostreSQLConnectorAction.build, hcf]

/-- Witness for C6: a failing credential resolution and a failing connect both
surface as build errors at concrete inputs. -/
theorem build_ok_iff_witness :
    PostreSQLConnectorAction.build ⟨"src1", "SELECT 1", 20⟩
      (.error (Err.credentialError "bad"))
      (fun _ => .error (Err.connectionError "down")) =
      .error (Err.credentialError "bad") ∧
    PostreSQLConnectorAction.build ⟨"src1", "SELECT 1", 20⟩
      (.ok ⟨"db", "u", "pw", "localhost", 5439⟩)
      (fun _ => .error (Err.connectionError "down")) =
      .error (Err.connectionError "down") :=
  ⟨(build_ok_iff ⟨"src1", "SELECT 1", 20⟩ (.error (Err.credentialError "bad"))
      (fun _ => .error (Err.connectionError "down"))).2.1 _ rfl,
   (build_ok_iff ⟨"src1", "SELECT 1", 20⟩ (.ok ⟨"db", "u", "pw", "localhost", 5439⟩)
      (fun _ => .error (Err.connectionError "down"))).2.2 _ _ rfl rfl⟩

/-- C7: `close` is a total function on action states (it never raises),
calling it twice equals calling it once, it is the identity when no
connection is stored, and otherwise it releases the stored handle. -/
theorem close_idempotent (s : PostreSQLConnectorAction.ActionState) :
    PostreSQLConnectorAction.close (PostreSQLConnectorAction.close s) =
      PostreSQLConnectorAction.close s ∧
    (s.db = none → PostreSQLConnectorAction.close s = s) ∧
    (∀ c, s.db = some c →
      (PostreSQLConnectorAction.close s).db = some c.closeConn) := by
  refine ⟨?_, fun h => ?_, fun c h => ?_⟩
  · cases h : s.db <;> simp [PostreSQLConnectorAction.close, h, DBConn.closeConn]
  · simp [PostreSQLConnectorAction.close, h]
  · simp [PostreSQLConnectorAction.close, h]

/-- Witness for C7 at a concrete state with no stored connection. -/
theorem close_idempotent_witness :
    PostreSQLConnectorAction.close ⟨none, "SELECT 1", 20⟩ =
      (⟨none, "SELECT 1", 20⟩ : PostreSQLConnectorAction.ActionState) :=
  (close_idempotent ⟨none, "SELECT 1", 20⟩).2.1 rfl

/-- C8: `run` never reads its payload: on one fixed action state, any two
payloads (even of different types) give the same result. -/
theorem run_ignores_payload {α β : Type} (s : PostreSQLConnectorAction.ActionState)
    (p1 : α) (p2 : β) :
    PostreSQLConnectorAction.run s p1 = PostreSQLConnectorAction.run s p2 := rfl

/-- C9: the `Connection` model defaults host to `"localhost"` and port to
`5439`; the registered `init` mapping and the `Configuration` model default
the timeout to 20 seconds. -/
theorem default_values :
    (∀ db u pw, ({database := db, user := u, password := pw} : Connection).host =
        "localhost" ∧
      ({database := db, user := u, password := pw} : Connection).port = 5439) ∧
    registerInitValues.timeout = 20 ∧
    (∀ sid q, ({sourceId := sid, query := q} : Configuration).timeout = 20) :=
  ⟨fun _ _ _ => ⟨rfl, rfl⟩, rfl, fun _ _ => rfl⟩

/-- C10: the row serializer is idempotent: serializing an already serialized
row changes nothing. -/
theorem to_dict_idempotent (row : Row) :
    PostreSQLConnectorAction.to_dict (PostreSQLConnectorAction.to_dict row) =
      PostreSQLConnectorAction.to_dict row := by
  unfold PostreSQLConnectorAction.to_dict
  rw [List.map_map]
  apply List.map_congr_left
  intro p _
  simp [Function.comp, serializeValue_idem]
